import Mathlib

/-!
# ChatApp (src/script.js): session controller, stream consumption, conversation state

A shallow embedding of the `ChatApp` class of `src/script.js`.

* The object state (`currentConversationId`, `isLoading`, `eventSource`) and the
  parts of the page the methods read and write (textarea value, send button,
  chat container children, welcome banner, sidebar list) are one record.
* Every `EventSource` the class creates is an entry of `sources`, stored together
  with the closure variables `messageId` and `assistantMessage` of its handlers.
* An `async` method is split at its `await fetch(...)`: the synchronous head pushes a
  continuation on `pending`; `settle` runs the rest of the method when the fetch settles.
* Calls that leave no mark on the record (`updateMessageContent` arguments,
  `console.error`, `focus`) are returned as a list of `Call`s next to the new state.

Not modelled: `formatMessageContent` (the record keeps the string handed to it),
`scrollToBottom`, the `open` class of the sidebar, time stamps of messages.
-/

namespace Chat

/-- Sender of a message element (`role` argument of `createMessageElement`). -/
inductive Role
  | user
  | assistant
  deriving DecidableEq, Repr

/-- Child of `chatContainer`: a message element (with the content string given to
`createMessageElement` or `updateMessageContent`, and the numeric part of its
`msg-<n>` id when it has one) or the `typing-indicator` element. -/
inductive Node
  | message (role : Role) (content : String) (id : Option Nat)
  | typingIndicator
  deriving DecidableEq, Repr

/-- Entry of the sidebar list built by `loadConversations` (lines 272-296). -/
structure ConversationItem where
  id : String
  title : String
  active : Bool
  deriving DecidableEq, Repr

/-- Parsed SSE payload in the wire shape `content?`, `conversation_id?`, `done?`. -/
structure Frame where
  content : Option String
  conversation_id : Option String
  done : Option Bool
  deriving DecidableEq, Repr

/-- Value of `event.data`: text on which `JSON.parse` throws, or a parsed frame. (Other
JSON values behave like one of the two: on `null` the read of `data.content` throws into the
same `catch`; a number, string or array has none of the three fields.) -/
inductive Payload
  | malformed
  | frame (f : Frame)
  deriving DecidableEq, Repr

/-- One `EventSource` object with the closure variables of its two handlers
(lines 117, 125, 127). `closed` is set by `close()`. -/
structure EventSource where
  closed : Bool
  messageId : Nat
  assistantMessage : String
  deriving DecidableEq, Repr

/-- Continuation of an `async` method suspended at `await fetch(...)`. -/
inductive Pending
  | chat (message : String)
  | conversations
  | conversation (conversationId : String)
  | delete (conversationId : String)
  | clear
  deriving DecidableEq, Repr

/-- Decoded body of a backend response, as far as the methods look at it:
`unparseable` makes `response.json()` reject; `summaries` is a JSON array of
`id`/`title` objects; `conversation` is a JSON object with (`some`) or without
(`none`) a `messages` array; `other` is any other JSON value. -/
inductive Body
  | unparseable
  | summaries (list : List (String × String))
  | conversation (messages : Option (List (Role × String)))
  | other
  deriving DecidableEq, Repr

/-- Resolved `fetch` response: `ok` is `response.ok` (status 2xx). -/
structure Response where
  ok : Bool
  body : Body
  deriving DecidableEq, Repr

/-- Calls that do not change the record. -/
inductive Call
  | updateMessageContent (messageId : Nat) (content : String)
  | consoleError (label : String)
  | focusInput
  deriving DecidableEq, Repr

/-- State of a `ChatApp` instance and of the page elements its methods touch. -/
structure ChatApp where
  currentConversationId : Option String
  isLoading : Bool
  eventSource : Option Nat
  sources : List EventSource
  pending : List Pending
  messageInput : String
  sendButtonDisabled : Bool
  chatContainer : List Node
  welcomeMessage : Bool
  conversationsList : List ConversationItem
  deriving DecidableEq, Repr

/-- White space and line terminators removed by `String.prototype.trim`. -/
def jsWhiteSpace (c : Char) : Bool :=
  c.toNat ∈ [0x09, 0x0A, 0x0B, 0x0C, 0x0D, 0x20, 0xA0, 0x1680, 0x2000, 0x2001, 0x2002,
    0x2003, 0x2004, 0x2005, 0x2006, 0x2007, 0x2008, 0x2009, 0x200A, 0x2028, 0x2029,
    0x202F, 0x205F, 0x3000, 0xFEFF]

/-- The `trim()` of line 75. -/
def jsTrim (s : String) : String :=
  String.mk ((((s.data.dropWhile jsWhiteSpace).reverse).dropWhile jsWhiteSpace).reverse)

/-- Text of the error reply of lines 162 and 171. -/
def errorText : String := "Sorry, I encountered an error. Please try again."

/-- `addMessageToChat` (lines 175-179). -/
def addMessageToChat (st : ChatApp) (role : Role) (content : String) : ChatApp :=
  { st with chatContainer := st.chatContainer ++ [Node.message role content none] }

/-- `showTypingIndicator` (lines 229-252). -/
def showTypingIndicator (st : ChatApp) : ChatApp :=
  { st with chatContainer := st.chatContainer ++ [Node.typingIndicator] }

/-- `removeTypingIndicator` (lines 254-259): the first element with the id
`typing-indicator` is removed. Only indicator elements carry that id here: message text is
kept as the string handed to the element, not as the markup rendered from it, so what is
stated about the chat container below is stated about its message elements. -/
def removeTypingIndicator (st : ChatApp) : ChatApp :=
  { st with chatContainer := st.chatContainer.erase Node.typingIndicator }

/-- Replace the text of the first message element whose id is `msg-<messageId>` (what
`getElementById` finds; only reply elements of the chat container carry such ids). -/
def setMessageText (messageId : Nat) (content : String) : List Node → List Node
  | [] => []
  | Node.message r c (some j) :: rest =>
      if j = messageId then Node.message r content (some j) :: rest
      else Node.message r c (some j) :: setMessageText messageId content rest
  | n :: rest => n :: setMessageText messageId content rest

/-- `updateMessageContent` (lines 208-217). -/
def updateMessageContent (st : ChatApp) (messageId : Nat) (content : String) : ChatApp :=
  { st with chatContainer := setMessageText messageId content st.chatContainer }

/-- Synchronous head of `loadConversations` (line 267): the list request is issued. -/
def loadConversations (st : ChatApp) : ChatApp :=
  { st with pending := st.pending ++ [Pending.conversations] }

/-- State after `new ChatApp()` (lines 2-10) on a page with an empty textarea, an
empty chat container and an empty sidebar list. -/
def init : ChatApp :=
  loadConversations
    { currentConversationId := none, isLoading := false, eventSource := none, sources := [],
      pending := [], messageInput := "", sendButtonDisabled := false, chatContainer := [],
      welcomeMessage := true, conversationsList := [] }

/-- `startNewChat` (lines 361-377). -/
def startNewChat (st : ChatApp) : ChatApp × List Call :=
  ({ st with
      currentConversationId := none,
      chatContainer := [],
      welcomeMessage := true,
      conversationsList := st.conversationsList.map (fun it => { it with active := false }) },
   [Call.focusInput])

/-- Synchronous head of `sendMessage` (lines 75-107), up to the `await fetch`. -/
def sendMessage (st : ChatApp) : ChatApp :=
  let message := jsTrim st.messageInput
  if message = "" ∨ st.isLoading = true then st
  else
    let st1 := { st with messageInput := "", welcomeMessage := false }
    let st2 := showTypingIndicator (addMessageToChat st1 Role.user message)
    { st2 with
        isLoading := true,
        sendButtonDisabled := true,
        pending := st2.pending ++ [Pending.chat message] }

/-- The `close()` of an `EventSource`. -/
def closeSource (sources : List EventSource) (j : Nat) : List EventSource :=
  match sources[j]? with
  | some src => sources.set j { src with closed := true }
  | none => sources

/-- Lines 133-136 of the `onmessage` handler of source `i`. -/
def onmessageContent (st : ChatApp) (i : Nat) (f : Frame) : ChatApp × List Call :=
  match f.content, st.sources[i]? with
  | some c, some src =>
      if c = "" then (st, [])
      else
        let assistantMessage := src.assistantMessage ++ c
        let st1 :=
          { st with sources := st.sources.set i { src with assistantMessage := assistantMessage } }
        (updateMessageContent st1 src.messageId assistantMessage,
         [Call.updateMessageContent src.messageId assistantMessage])
  | _, _ => (st, [])

/-- Lines 138-141 of the `onmessage` handler. -/
def onmessageConversation (st : ChatApp) (f : Frame) : ChatApp × List Call :=
  match f.conversation_id with
  | some id =>
      if id = "" then (st, [])
      else (loadConversations { st with currentConversationId := some id }, [])
  | none => (st, [])

/-- Lines 143-151 of the `onmessage` handler. With `this.eventSource` null the call of
`close` throws and the `catch` of line 149 logs it. -/
def onmessageDone (st : ChatApp) (f : Frame) : ChatApp × List Call :=
  if f.done = some true then
    match st.eventSource with
    | none => (st, [Call.consoleError "Error parsing SSE data:"])
    | some j =>
        ({ st with
            sources := closeSource st.sources j,
            isLoading := false,
            sendButtonDisabled := false },
         [Call.focusInput])
  else (st, [])

/-- The `onmessage` handler of source `i` (lines 129-152). -/
def onmessage (st : ChatApp) (i : Nat) : Payload → ChatApp × List Call
  | Payload.malformed => (st, [Call.consoleError "Error parsing SSE data:"])
  | Payload.frame f =>
      let r1 := onmessageContent st i f
      let r2 := onmessageConversation r1.1 f
      let r3 := onmessageDone r2.1 f
      (r3.1, r1.2 ++ r2.2 ++ r3.2)

/-- The `onerror` handler of source `i` (lines 154-164). With `this.eventSource` null
the call of `close` throws out of the handler after the log line. -/
def onerror (st : ChatApp) (i : Nat) : ChatApp × List Call :=
  match st.eventSource, st.sources[i]? with
  | some j, some src =>
      let st1 := removeTypingIndicator
        { st with
            sources := closeSource st.sources j,
            isLoading := false,
            sendButtonDisabled := false }
      (if src.assistantMessage = "" then addMessageToChat st1 Role.assistant errorText else st1,
       [Call.consoleError "SSE Error:"])
  | _, _ => (st, [Call.consoleError "SSE Error:"])

/-- Rest of `sendMessage` once the POST has settled (lines 109-172); `none` is a
rejected `fetch`, `now` the value of `Date.now()`. -/
def sendMessageResume (st : ChatApp) (r : Option Response) (now : Nat) : ChatApp × List Call :=
  match r with
  | some ⟨true, _⟩ =>
      let st1 := removeTypingIndicator st
      ({ st1 with
          chatContainer := st1.chatContainer ++ [Node.message Role.assistant "" (some now)],
          eventSource := some st1.sources.length,
          sources := st1.sources ++ [⟨false, now, ""⟩] },
       [])
  | _ =>
      let st1 := removeTypingIndicator st
      (addMessageToChat { st1 with isLoading := false, sendButtonDisabled := false }
          Role.assistant errorText,
       [Call.consoleError "Error sending message:"])

/-- Rest of `loadConversations` once the GET has settled (lines 268-299). -/
def loadConversationsResume (st : ChatApp) (r : Option Response) : ChatApp × List Call :=
  match r with
  | none => (st, [Call.consoleError "Error loading conversations:"])
  | some ⟨_, Body.unparseable⟩ => (st, [Call.consoleError "Error loading conversations:"])
  | some ⟨_, Body.summaries l⟩ =>
      ({ st with
          conversationsList :=
            l.map (fun c => ⟨c.1, c.2, decide (some c.1 = st.currentConversationId)⟩) },
       [])
  | some ⟨_, _⟩ =>
      ({ st with conversationsList := [] }, [Call.consoleError "Error loading conversations:"])

/-- Synchronous head of `loadConversation` (line 304). -/
def loadConversation (st : ChatApp) (conversationId : String) : ChatApp :=
  { st with pending := st.pending ++ [Pending.conversation conversationId] }

/-- Rest of `loadConversation` once the GET has settled (lines 305-336). -/
def loadConversationResume (st : ChatApp) (conversationId : String) (r : Option Response) :
    ChatApp × List Call :=
  match r with
  | none => (st, [Call.consoleError "Error loading conversation:"])
  | some ⟨_, Body.unparseable⟩ => (st, [Call.consoleError "Error loading conversation:"])
  | some ⟨_, Body.conversation (some messages)⟩ =>
      let st1 :=
        { st with
            currentConversationId := some conversationId,
            chatContainer := [],
            welcomeMessage := false }
      let st2 := messages.foldl (fun s m => addMessageToChat s m.1 m.2) st1
      ({ st2 with
          conversationsList :=
            st2.conversationsList.map
              (fun it => { it with active := decide (it.id = conversationId) }) },
       [])
  | some ⟨_, _⟩ =>
      ({ st with
          currentConversationId := some conversationId,
          chatContainer := [],
          welcomeMessage := false },
       [Call.consoleError "Error loading conversation:"])

/-- Synchronous head of `deleteConversation` (lines 340-345); `confirmed` is the
answer to `confirm(...)`. -/
def deleteConversation (st : ChatApp) (conversationId : String) (confirmed : Bool) : ChatApp :=
  if confirmed then { st with pending := st.pending ++ [Pending.delete conversationId] } else st

/-- Rest of `deleteConversation` once the DELETE has settled (lines 347-358). -/
def deleteConversationResume (st : ChatApp) (conversationId : String) (r : Option Response) :
    ChatApp × List Call :=
  match r with
  | none => (st, [Call.consoleError "Error deleting conversation:"])
  | some resp =>
      if resp.ok then
        if st.currentConversationId = some conversationId then
          let r1 := startNewChat st
          (loadConversations r1.1, r1.2)
        else (loadConversations st, [])
      else (st, [])

/-- Synchronous head of `clearConversations` (lines 380-385). -/
def clearConversations (st : ChatApp) (confirmed : Bool) : ChatApp :=
  if confirmed then { st with pending := st.pending ++ [Pending.clear] } else st

/-- Rest of `clearConversations` once the POST has settled (lines 387-393). -/
def clearConversationsResume (st : ChatApp) (r : Option Response) : ChatApp × List Call :=
  match r with
  | none => (st, [Call.consoleError "Error clearing conversations:"])
  | some resp =>
      if resp.ok then
        let r1 := startNewChat st
        (loadConversations r1.1, r1.2)
      else (st, [])

/-- The `k`-th pending fetch settles with `r`: its continuation leaves `pending` and runs. -/
def settle (st : ChatApp) (k : Nat) (r : Option Response) (now : Nat) : ChatApp × List Call :=
  match st.pending[k]? with
  | none => (st, [])
  | some t =>
      let st0 := { st with pending := st.pending.eraseIdx k }
      match t with
      | Pending.chat _ => sendMessageResume st0 r now
      | Pending.conversations => loadConversationsResume st0 r
      | Pending.conversation id => loadConversationResume st0 id r
      | Pending.delete id => deleteConversationResume st0 id r
      | Pending.clear => clearConversationsResume st0 r

/-- Source `i` exists and `close()` has not been called on it. -/
def sourceOpen (sources : List EventSource) (i : Nat) : Bool :=
  match sources[i]? with
  | some src => !src.closed
  | none => false

/-- An `EventSource` dispatches events only while it is not closed. -/
def isOpen (st : ChatApp) (i : Nat) : Bool := sourceOpen st.sources i

/-- Ids of the entries of the sidebar list. -/
def listedIds (st : ChatApp) : List String := st.conversationsList.map ConversationItem.id

/-- What can happen to the page: user input, the listeners of lines 26-46 and of the
sidebar items, a settled fetch, an event of an `EventSource`. -/
inductive Action
  | input (value : String)
  | send
  | newChat
  | openConversation (conversationId : String)
  | deleteConversation (conversationId : String) (confirmed : Bool)
  | clearConversations (confirmed : Bool)
  | settle (k : Nat) (r : Option Response) (now : Nat)
  | message (i : Nat) (p : Payload)
  | error (i : Nat)
  deriving DecidableEq, Repr

/-- One turn of the event loop. The listeners of lines 287-293 exist only on the entries
of the sidebar list, so only a listed conversation can be opened or deleted. -/
def step (st : ChatApp) : Action → ChatApp × List Call
  | Action.input value => ({ st with messageInput := value }, [])
  | Action.send => (sendMessage st, [])
  | Action.newChat => startNewChat st
  | Action.openConversation id =>
      if id ∈ listedIds st then (loadConversation st id, []) else (st, [])
  | Action.deleteConversation id confirmed =>
      if id ∈ listedIds st then (deleteConversation st id confirmed, []) else (st, [])
  | Action.clearConversations confirmed => (clearConversations st confirmed, [])
  | Action.settle k r now => settle st k r now
  | Action.message i p => if isOpen st i then onmessage st i p else (st, [])
  | Action.error i => if isOpen st i then onerror st i else (st, [])

/-- Run a list of actions, collecting the calls. -/
def run (st : ChatApp) : List Action → ChatApp × List Call
  | [] => (st, [])
  | a :: rest =>
      let r1 := step st a
      let r2 := run r1.1 rest
      (r2.1, r1.2 ++ r2.2)

/-- States the page can be in: reached from `init` by some list of actions. -/
def Reachable (st : ChatApp) : Prop := ∃ actions, (run init actions).1 = st

/-- Feed a list of payloads to the `onmessage` handler of source `i`. -/
def deliver (st : ChatApp) (i : Nat) : List Payload → ChatApp
  | [] => st
  | p :: rest => deliver (onmessage st i p).1 i rest

/-- Content fragment carried by a payload (empty when it carries none). -/
def fragment : Payload → String
  | Payload.frame f => f.content.getD ""
  | Payload.malformed => ""

/-- Concatenation, in arrival order, of the fragments of a list of payloads. -/
def fragments : List Payload → String
  | [] => ""
  | p :: rest => fragment p ++ fragments rest

/-- Arguments of the `updateMessageContent` calls in a list of calls. -/
def updates : List Call → List (Nat × String)
  | [] => []
  | Call.updateMessageContent id content :: rest => (id, content) :: updates rest
  | _ :: rest => updates rest

/-- The closure variable `assistantMessage` of source `i`. -/
def accumulated (st : ChatApp) (i : Nat) : Option String :=
  (st.sources[i]?).map EventSource.assistantMessage

/-- Is the continuation the rest of a `sendMessage`? -/
def Pending.isChat : Pending → Bool
  | Pending.chat _ => true
  | _ => false

/-- Number of `sendMessage` calls waiting for their POST to settle. -/
def pendingChats (l : List Pending) : Nat := l.countP Pending.isChat

/-- What holds of the subscription in every reachable state: an open source is the one
held in `this.eventSource`, only while `isLoading` is set and no send is waiting for its
POST; at most one send waits, and only while `isLoading` is set. -/
structure Inv (st : ChatApp) : Prop where
  current : ∀ i, sourceOpen st.sources i = true → st.eventSource = some i
  loading : ∀ i, sourceOpen st.sources i = true → st.isLoading = true
  noChat : ∀ i, sourceOpen st.sources i = true → pendingChats st.pending = 0
  attached : st.eventSource = none → st.sources = []
  single : pendingChats st.pending ≤ 1
  busy : 0 < pendingChats st.pending → st.isLoading = true

/-- Is the child of the chat container a message element? -/
def Node.isMessage : Node → Bool
  | Node.message _ _ _ => true
  | Node.typingIndicator => false

/-- The message elements among the children of the chat container, in page order. -/
def messageNodes (l : List Node) : List Node := l.filter Node.isMessage

/-- The page after typing "Hello" and pressing send: the POST is in flight. -/
def awaiting : ChatApp := (run init [Action.input "Hello", Action.send]).1

/-- The page after the POST of `awaiting` was accepted at time 7: source 0 is streaming. -/
def streaming : ChatApp := (run awaiting [Action.settle 1 (some ⟨true, Body.other⟩) 7]).1

/-- The page of `streaming` after the frame with content "X" arrived. -/
def streamingX : ChatApp :=
  (run streaming [Action.message 0 (Payload.frame ⟨some "X", none, none⟩)]).1

/-- The page after the sidebar listed the conversations "c1" and "c2" and the user opened
"c1". -/
def viewing : ChatApp :=
  (run init
    [Action.settle 0
       (some ⟨true, Body.summaries [("c1", "First chat"), ("c2", "Second chat")]⟩) 1,
     Action.openConversation "c1",
     Action.settle 0
       (some ⟨true, Body.conversation (some [(Role.user, "hi"), (Role.assistant, "hello")])⟩) 2]).1

/-- Conversation id a payload binds: the `conversation_id` of a frame when line 138 finds it
truthy. -/
def boundId : Payload → Option String
  | Payload.frame f =>
      match f.conversation_id with
      | some id => if id = "" then none else some id
      | none => none
  | Payload.malformed => none

/-! ## Sources and pending continuations -/

theorem sourceOpen_set_text (l : List EventSource) (i k : Nat) (src : EventSource) (m : String)
    (h : l[i]? = some src) :
    sourceOpen (l.set i { src with assistantMessage := m }) k = sourceOpen l k := by
  unfold sourceOpen
  by_cases hk : i = k
  · subst hk
    have hi : i < l.length := by
      rcases Nat.lt_or_ge i l.length with h1 | h1
      · exact h1
      · rw [List.getElem?_eq_none h1] at h; cases h
    simp [List.getElem?_set_self, hi, h]
  · simp [List.getElem?_set_ne hk]

theorem sourceOpen_closeSource (l : List EventSource) (j k : Nat) :
    sourceOpen (closeSource l j) k = (sourceOpen l k && decide (k ≠ j)) := by
  unfold closeSource
  cases h : l[j]? with
  | none =>
      by_cases hk : k = j
      · subst hk; simp [sourceOpen, h]
      · simp [hk]
  | some src =>
      by_cases hk : j = k
      · subst hk
        have hj : j < l.length := by
          rcases Nat.lt_or_ge j l.length with h1 | h1
          · exact h1
          · rw [List.getElem?_eq_none h1] at h; cases h
        simp [sourceOpen, List.getElem?_set_self, hj]
      · have hk2 : k ≠ j := fun e => hk e.symm
        simp [sourceOpen, List.getElem?_set_ne hk, hk2]

theorem sourceOpen_append (l : List EventSource) (n : Nat) (m : String) (k : Nat) :
    sourceOpen (l ++ [⟨false, n, m⟩]) k = (sourceOpen l k || decide (k = l.length)) := by
  unfold sourceOpen
  rcases Nat.lt_trichotomy k l.length with h | h | h
  · have : k ≠ l.length := Nat.ne_of_lt h
    simp [List.getElem?_append_left h, this]
  · subst h
    simp
  · have h1 : l.length ≤ k := Nat.le_of_lt h
    have h2 : k ≠ l.length := Nat.ne_of_gt h
    have h3 : (l ++ [(⟨false, n, m⟩ : EventSource)])[k]? = none := by
      apply List.getElem?_eq_none
      simp
      omega
    rw [h3, List.getElem?_eq_none h1]
    simp [h2]

theorem sourceOpen_lt (l : List EventSource) (k : Nat) (h : sourceOpen l k = true) :
    k < l.length := by
  unfold sourceOpen at h
  rcases Nat.lt_or_ge k l.length with h1 | h1
  · exact h1
  · rw [List.getElem?_eq_none h1] at h; cases h

theorem pendingChats_append (l : List Pending) (t : Pending) :
    pendingChats (l ++ [t]) = pendingChats l + (if t.isChat then 1 else 0) := by
  simp [pendingChats, List.countP_append, List.countP_cons]

theorem pendingChats_eraseIdx (l : List Pending) (k : Nat) (t : Pending) (h : l[k]? = some t) :
    pendingChats (l.eraseIdx k) + (if t.isChat then 1 else 0) = pendingChats l := by
  induction l generalizing k with
  | nil => simp at h
  | cons a rest ih =>
      cases k with
      | zero =>
          simp at h
          subst h
          simp [pendingChats, List.countP_cons]
      | succ k =>
          simp at h
          have := ih k h
          simp only [pendingChats, List.eraseIdx_cons_succ, List.countP_cons] at this ⊢
          omega

/-! ## The subscription invariant -/

theorem Inv.of_same {st st' : ChatApp} (h : Inv st) (hs : st'.sources = st.sources)
    (he : st'.eventSource = st.eventSource) (hl : st'.isLoading = st.isLoading)
    (hp : pendingChats st'.pending = pendingChats st.pending) : Inv st' := by
  refine ⟨?_, ?_, ?_, ?_, ?_, ?_⟩
  · intro i hi; rw [he]; rw [hs] at hi; exact h.current i hi
  · intro i hi; rw [hl]; rw [hs] at hi; exact h.loading i hi
  · intro i hi; rw [hp]; rw [hs] at hi; exact h.noChat i hi
  · intro hn; rw [hs]; rw [he] at hn; exact h.attached hn
  · rw [hp]; exact h.single
  · intro hpos; rw [hl]; rw [hp] at hpos; exact h.busy hpos

theorem inv_init : Inv init := by
  refine ⟨?_, ?_, ?_, ?_, ?_, ?_⟩ <;> simp [init, loadConversations, sourceOpen, pendingChats,
    Pending.isChat]

theorem inv_sendMessage (st : ChatApp) (h : Inv st) : Inv (sendMessage st) := by
  unfold sendMessage
  simp only
  split
  · exact h
  · rename_i hg
    have hl : st.isLoading = false := by
      cases hb : st.isLoading with
      | false => rfl
      | true => exact absurd (Or.inr hb) hg
    have hclosed : ∀ i, sourceOpen st.sources i = true → False := by
      intro i hi
      have := h.loading i hi
      rw [hl] at this; cases this
    have hzero : pendingChats st.pending = 0 := by
      rcases Nat.eq_zero_or_pos (pendingChats st.pending) with h0 | h0
      · exact h0
      · have := h.busy h0
        rw [hl] at this; cases this
    refine ⟨?_, ?_, ?_, ?_, ?_, ?_⟩
    · intro i hi; exact absurd (by simpa [showTypingIndicator, addMessageToChat] using hi)
        (fun hi2 => hclosed i hi2)
    · intro i _; rfl
    · intro i hi; exact absurd (by simpa [showTypingIndicator, addMessageToChat] using hi)
        (fun hi2 => hclosed i hi2)
    · intro hn; exact h.attached hn
    · simp [showTypingIndicator, addMessageToChat, pendingChats_append, Pending.isChat, hzero]
    · intro _; rfl

theorem inv_onmessageContent (st : ChatApp) (i : Nat) (f : Frame) (h : Inv st) :
    Inv (onmessageContent st i f).1 := by
  unfold onmessageContent
  split
  · rename_i c src hc hsrc
    split
    · exact h
    · refine ⟨?_, ?_, ?_, ?_, ?_, ?_⟩
      · intro k hk
        simp only [updateMessageContent, sourceOpen_set_text _ _ _ _ _ hsrc] at hk ⊢
        exact h.current k hk
      · intro k hk
        simp only [updateMessageContent, sourceOpen_set_text _ _ _ _ _ hsrc] at hk ⊢
        exact h.loading k hk
      · intro k hk
        simp only [updateMessageContent, sourceOpen_set_text _ _ _ _ _ hsrc] at hk ⊢
        exact h.noChat k hk
      · intro hn
        have := h.attached hn
        rw [this] at hsrc
        simp at hsrc
      · exact h.single
      · exact h.busy
  · exact h

theorem isOpen_onmessageContent (st : ChatApp) (i k : Nat) (f : Frame) :
    isOpen (onmessageContent st i f).1 k = isOpen st k := by
  unfold onmessageContent
  split
  · rename_i c src hc hsrc
    split
    · rfl
    · simp only [isOpen, updateMessageContent, sourceOpen_set_text _ _ _ _ _ hsrc]
  · rfl

theorem inv_onmessageConversation (st : ChatApp) (f : Frame) (h : Inv st) :
    Inv (onmessageConversation st f).1 := by
  unfold onmessageConversation
  split
  · split
    · exact h
    · exact h.of_same rfl rfl rfl (by simp [loadConversations, pendingChats_append, Pending.isChat])
  · exact h

theorem isOpen_onmessageConversation (st : ChatApp) (k : Nat) (f : Frame) :
    isOpen (onmessageConversation st f).1 k = isOpen st k := by
  unfold onmessageConversation
  split
  · split <;> rfl
  · rfl

theorem inv_close (st : ChatApp) (i j : Nat) (h : Inv st) (hi : isOpen st i = true)
    (hj : st.eventSource = some j) (chat : List Node) :
    Inv { st with
      sources := closeSource st.sources j,
      isLoading := false,
      sendButtonDisabled := false,
      chatContainer := chat } := by
  have hclosed : ∀ k, sourceOpen (closeSource st.sources j) k = true → False := by
    intro k hk
    rw [sourceOpen_closeSource] at hk
    simp only [Bool.and_eq_true, decide_eq_true_eq] at hk
    have := h.current k hk.1
    rw [hj] at this
    exact hk.2 (Option.some.inj this).symm
  refine ⟨?_, ?_, ?_, ?_, ?_, ?_⟩
  · intro k hk; exact absurd hk (fun x => hclosed k x)
  · intro k hk; exact absurd hk (fun x => hclosed k x)
  · intro k hk; exact absurd hk (fun x => hclosed k x)
  · intro hn; simp only at hn; rw [hj] at hn; cases hn
  · exact h.single
  · intro hpos
    have := h.noChat i hi
    simp only at hpos
    omega

theorem inv_onmessageDone (st : ChatApp) (i : Nat) (f : Frame) (h : Inv st)
    (hi : isOpen st i = true) : Inv (onmessageDone st f).1 := by
  unfold onmessageDone
  split
  · split
    · exact h
    · rename_i j hj
      have := inv_close st i j h hi hj st.chatContainer
      exact this
  · exact h

theorem inv_onmessage (st : ChatApp) (i : Nat) (p : Payload) (h : Inv st)
    (hi : isOpen st i = true) : Inv (onmessage st i p).1 := by
  cases p with
  | malformed => exact h
  | frame f =>
      simp only [onmessage]
      apply inv_onmessageDone _ i
      · exact inv_onmessageConversation _ _ (inv_onmessageContent _ _ _ h)
      · rw [isOpen_onmessageConversation, isOpen_onmessageContent]; exact hi

theorem inv_onerror (st : ChatApp) (i : Nat) (h : Inv st) (hi : isOpen st i = true) :
    Inv (onerror st i).1 := by
  unfold onerror
  split
  · rename_i j src hj hsrc
    simp only [removeTypingIndicator]
    split
    · exact inv_close st i j h hi hj _
    · exact inv_close st i j h hi hj _
  · exact h

theorem pendingChats_eraseIdx_le (l : List Pending) (k : Nat) :
    pendingChats (l.eraseIdx k) ≤ pendingChats l := by
  cases h : l[k]? with
  | none =>
      have hk : l.length ≤ k := by
        rcases Nat.lt_or_ge k l.length with h1 | h1
        · rw [List.getElem?_eq_getElem h1] at h; cases h
        · exact h1
      rw [List.eraseIdx_of_length_le hk]
  | some t =>
      have := pendingChats_eraseIdx l k t h
      omega

theorem inv_erase (st : ChatApp) (k : Nat) (h : Inv st) :
    Inv { st with pending := st.pending.eraseIdx k } := by
  have hle := pendingChats_eraseIdx_le st.pending k
  refine ⟨h.current, h.loading, ?_, h.attached, ?_, ?_⟩
  · intro i hi
    have := h.noChat i hi
    simp only
    omega
  · have := h.single
    simp only
    omega
  · intro hpos
    simp only at hpos
    exact h.busy (by omega)

theorem inv_sendMessageResume (st : ChatApp) (r : Option Response) (now : Nat) (h : Inv st)
    (hclosed : ∀ i, sourceOpen st.sources i = true → False)
    (hzero : pendingChats st.pending = 0) (hl : st.isLoading = true) :
    Inv (sendMessageResume st r now).1 := by
  have hfail : Inv (addMessageToChat
      { removeTypingIndicator st with isLoading := false, sendButtonDisabled := false }
      Role.assistant errorText) := by
    refine ⟨?_, ?_, ?_, h.attached, ?_, ?_⟩
    · intro k hk; exact absurd hk (fun x => hclosed k x)
    · intro k hk; exact absurd hk (fun x => hclosed k x)
    · intro k hk; exact absurd hk (fun x => hclosed k x)
    · exact h.single
    · intro hpos
      simp only [addMessageToChat, removeTypingIndicator, hzero] at hpos
      exact absurd hpos (Nat.lt_irrefl 0)
  unfold sendMessageResume
  split
  · refine ⟨?_, ?_, ?_, ?_, ?_, ?_⟩
    · intro k hk
      simp only [removeTypingIndicator, sourceOpen_append, Bool.or_eq_true,
        decide_eq_true_eq] at hk ⊢
      rcases hk with hk | hk
      · exact absurd hk (fun x => hclosed k x)
      · rw [hk]
    · intro k _; exact hl
    · intro k _; exact hzero
    · intro hn; simp at hn
    · exact h.single
    · intro _; exact hl
  · exact hfail

theorem inv_startNewChat (st : ChatApp) (h : Inv st) : Inv (startNewChat st).1 :=
  h.of_same rfl rfl rfl rfl

theorem inv_loadConversations (st : ChatApp) (h : Inv st) : Inv (loadConversations st) :=
  h.of_same rfl rfl rfl (by simp [loadConversations, pendingChats_append, Pending.isChat])

theorem inv_loadConversationsResume (st : ChatApp) (r : Option Response) (h : Inv st) :
    Inv (loadConversationsResume st r).1 := by
  unfold loadConversationsResume
  split <;> first | exact h | exact h.of_same rfl rfl rfl rfl

theorem foldl_addMessage_fields (messages : List (Role × String)) (st : ChatApp) :
    (messages.foldl (fun s m => addMessageToChat s m.1 m.2) st).sources = st.sources ∧
    (messages.foldl (fun s m => addMessageToChat s m.1 m.2) st).eventSource = st.eventSource ∧
    (messages.foldl (fun s m => addMessageToChat s m.1 m.2) st).isLoading = st.isLoading ∧
    (messages.foldl (fun s m => addMessageToChat s m.1 m.2) st).pending = st.pending ∧
    (messages.foldl (fun s m => addMessageToChat s m.1 m.2) st).currentConversationId
      = st.currentConversationId := by
  induction messages generalizing st with
  | nil => simp
  | cons m rest ih =>
      simp only [List.foldl_cons]
      have := ih (addMessageToChat st m.1 m.2)
      simpa [addMessageToChat] using this

theorem inv_loadConversationResume (st : ChatApp) (id : String) (r : Option Response)
    (h : Inv st) : Inv (loadConversationResume st id r).1 := by
  unfold loadConversationResume
  split
  · exact h
  · exact h
  · rename_i messages
    have hf := foldl_addMessage_fields messages
      { st with currentConversationId := some id, chatContainer := [], welcomeMessage := false }
    exact h.of_same hf.1 hf.2.1 hf.2.2.1 (by rw [show _ = _ from hf.2.2.2.1])
  · exact h.of_same rfl rfl rfl rfl

theorem inv_deleteConversationResume (st : ChatApp) (id : String) (r : Option Response)
    (h : Inv st) : Inv (deleteConversationResume st id r).1 := by
  unfold deleteConversationResume
  split
  · exact h
  · split
    · split
      · exact inv_loadConversations _ (inv_startNewChat _ h)
      · exact inv_loadConversations _ h
    · exact h

theorem inv_clearConversationsResume (st : ChatApp) (r : Option Response) (h : Inv st) :
    Inv (clearConversationsResume st r).1 := by
  unfold clearConversationsResume
  split
  · exact h
  · split
    · exact inv_loadConversations _ (inv_startNewChat _ h)
    · exact h

theorem inv_settle (st : ChatApp) (k : Nat) (r : Option Response) (now : Nat) (h : Inv st) :
    Inv (settle st k r now).1 := by
  unfold settle
  split
  · exact h
  · rename_i t ht
    have he := inv_erase st k h
    have hcount := pendingChats_eraseIdx st.pending k t ht
    cases t with
    | chat m =>
        simp only [Pending.isChat, if_true] at hcount
        have hs := h.single
        have hz : pendingChats (st.pending.eraseIdx k) = 0 := by omega
        have hpos : 0 < pendingChats st.pending := by omega
        apply inv_sendMessageResume _ r now he
        · intro i hi
          have := h.noChat i hi
          omega
        · exact hz
        · exact h.busy hpos
    | conversations => exact inv_loadConversationsResume _ r he
    | conversation id => exact inv_loadConversationResume _ id r he
    | delete id => exact inv_deleteConversationResume _ id r he
    | clear => exact inv_clearConversationsResume _ r he

theorem inv_step (st : ChatApp) (a : Action) (h : Inv st) : Inv (step st a).1 := by
  cases a with
  | input value => exact h.of_same rfl rfl rfl rfl
  | send => exact inv_sendMessage st h
  | newChat => exact inv_startNewChat st h
  | openConversation id =>
      simp only [step]
      split
      · exact h.of_same rfl rfl rfl
          (by simp [loadConversation, pendingChats_append, Pending.isChat])
      · exact h
  | deleteConversation id confirmed =>
      simp only [step, deleteConversation]
      split
      · split
        · exact h.of_same rfl rfl rfl (by simp [pendingChats_append, Pending.isChat])
        · exact h
      · exact h
  | clearConversations confirmed =>
      simp only [step, clearConversations]
      split
      · exact h.of_same rfl rfl rfl (by simp [pendingChats_append, Pending.isChat])
      · exact h
  | settle k r now => exact inv_settle st k r now h
  | message i p =>
      simp only [step]
      split
      · rename_i hi; exact inv_onmessage st i p h hi
      · exact h
  | error i =>
      simp only [step]
      split
      · rename_i hi; exact inv_onerror st i h hi
      · exact h

theorem inv_run (actions : List Action) (st : ChatApp) (h : Inv st) :
    Inv (run st actions).1 := by
  induction actions generalizing st with
  | nil => exact h
  | cons a rest ih => exact ih _ (inv_step st a h)

theorem inv_of_reachable (st : ChatApp) (h : Reachable st) : Inv st := by
  obtain ⟨actions, rfl⟩ := h
  exact inv_run actions init inv_init

/-! ## Message elements of the chat container -/

theorem messageNodes_append (a b : List Node) :
    messageNodes (a ++ b) = messageNodes a ++ messageNodes b := by
  simp [messageNodes]

theorem messageNodes_erase_typing (l : List Node) :
    messageNodes (l.erase Node.typingIndicator) = messageNodes l := by
  induction l with
  | nil => rfl
  | cons n rest ih =>
      cases n with
      | typingIndicator => simp [messageNodes, Node.isMessage]
      | message r c j =>
          have hne : (Node.message r c j == Node.typingIndicator) = false := by
            simp
          rw [List.erase_cons, hne]
          simp only [messageNodes, Bool.false_eq_true, if_false, List.filter_cons,
            Node.isMessage, if_true] at ih ⊢
          rw [ih]

/-! ## The reply accumulator -/

theorem closeSource_getElem (l : List EventSource) (i j : Nat) (src : EventSource)
    (h : l[i]? = some src) :
    ∃ src2, (closeSource l j)[i]? = some src2 ∧ src2.messageId = src.messageId ∧
      src2.assistantMessage = src.assistantMessage := by
  unfold closeSource
  cases hj : l[j]? with
  | none => exact ⟨src, h, rfl, rfl⟩
  | some sj =>
      by_cases hij : j = i
      · subst hij
        have hlt : j < l.length := by
          rcases Nat.lt_or_ge j l.length with h1 | h1
          · exact h1
          · rw [List.getElem?_eq_none h1] at h; cases h
        rw [h] at hj
        cases hj
        exact ⟨{ src with closed := true }, by simp [List.getElem?_set_self, hlt], rfl, rfl⟩
      · exact ⟨src, by simp [List.getElem?_set_ne hij, h], rfl, rfl⟩

theorem set_getElem_self (l : List EventSource) (i : Nat) (src new : EventSource)
    (h : l[i]? = some src) : (l.set i new)[i]? = some new := by
  have hlt : i < l.length := by
    rcases Nat.lt_or_ge i l.length with h1 | h1
    · exact h1
    · rw [List.getElem?_eq_none h1] at h; cases h
  simp [List.getElem?_set_self, hlt]

theorem onmessageContent_source (st : ChatApp) (i : Nat) (f : Frame) (src : EventSource)
    (h : st.sources[i]? = some src) :
    ∃ src2, (onmessageContent st i f).1.sources[i]? = some src2 ∧
      src2.messageId = src.messageId ∧
      src2.assistantMessage = src.assistantMessage ++ f.content.getD "" := by
  unfold onmessageContent
  cases hc : f.content with
  | none => exact ⟨src, by simp [h], rfl, by simp⟩
  | some c =>
      simp only [h]
      by_cases he : c = ""
      · subst he
        exact ⟨src, by simp [h], rfl, by simp⟩
      · simp only [he, if_false, updateMessageContent, Option.getD_some]
        exact ⟨_, set_getElem_self _ _ _ _ h, rfl, rfl⟩

theorem onmessageContent_updates (st : ChatApp) (i : Nat) (f : Frame) (src : EventSource)
    (h : st.sources[i]? = some src) :
    updates (onmessageContent st i f).2 =
      if f.content.getD "" = "" then []
      else [(src.messageId, src.assistantMessage ++ f.content.getD "")] := by
  unfold onmessageContent
  cases hc : f.content with
  | none => simp [updates]
  | some c =>
      simp only [h]
      by_cases he : c = ""
      · subst he
        simp [updates]
      · simp [he, updates]

theorem onmessageConversation_sources (st : ChatApp) (f : Frame) :
    (onmessageConversation st f).1.sources = st.sources ∧
    updates (onmessageConversation st f).2 = [] := by
  unfold onmessageConversation
  split
  · split <;> exact ⟨rfl, rfl⟩
  · exact ⟨rfl, rfl⟩

theorem onmessageDone_source (st : ChatApp) (i : Nat) (f : Frame) (src : EventSource)
    (h : st.sources[i]? = some src) :
    (∃ src2, (onmessageDone st f).1.sources[i]? = some src2 ∧
      src2.messageId = src.messageId ∧ src2.assistantMessage = src.assistantMessage) ∧
    updates (onmessageDone st f).2 = [] := by
  unfold onmessageDone
  split
  · split
    · exact ⟨⟨src, h, rfl, rfl⟩, rfl⟩
    · rename_i j _
      exact ⟨closeSource_getElem st.sources i j src h, rfl⟩
  · exact ⟨⟨src, h, rfl, rfl⟩, rfl⟩

theorem updates_append (a b : List Call) : updates (a ++ b) = updates a ++ updates b := by
  induction a with
  | nil => rfl
  | cons c rest ih =>
      cases c <;> simp [updates, ih]

theorem onmessage_source (st : ChatApp) (i : Nat) (p : Payload) (src : EventSource)
    (h : st.sources[i]? = some src) :
    (∃ src2, (onmessage st i p).1.sources[i]? = some src2 ∧
      src2.messageId = src.messageId ∧
      src2.assistantMessage = src.assistantMessage ++ fragment p) ∧
    updates (onmessage st i p).2 =
      if fragment p = "" then [] else [(src.messageId, src.assistantMessage ++ fragment p)] := by
  cases p with
  | malformed => exact ⟨⟨src, h, rfl, by simp [fragment]⟩, by simp [onmessage, updates, fragment]⟩
  | frame f =>
      obtain ⟨s1, h1, hid1, htxt1⟩ := onmessageContent_source st i f src h
      have hu1 := onmessageContent_updates st i f src h
      have h2 := onmessageConversation_sources (onmessageContent st i f).1 f
      rw [← h2.1] at h1
      obtain ⟨⟨s3, h3, hid3, htxt3⟩, hu3⟩ :=
        onmessageDone_source (onmessageConversation (onmessageContent st i f).1 f).1 i f s1 h1
      refine ⟨⟨s3, h3, by rw [hid3, hid1], by rw [htxt3, htxt1]; rfl⟩, ?_⟩
      simp only [onmessage, updates_append, hu1, h2.2, hu3, List.append_nil, fragment]

theorem deliver_source (ps : List Payload) (st : ChatApp) (i : Nat) (src : EventSource)
    (h : st.sources[i]? = some src) :
    ∃ src2, (deliver st i ps).sources[i]? = some src2 ∧
      src2.messageId = src.messageId ∧
      src2.assistantMessage = src.assistantMessage ++ fragments ps := by
  induction ps generalizing st src with
  | nil => exact ⟨src, h, rfl, by simp [fragments]⟩
  | cons p rest ih =>
      obtain ⟨⟨s1, h1, hid1, htxt1⟩, _⟩ := onmessage_source st i p src h
      obtain ⟨s2, h2, hid2, htxt2⟩ := ih (onmessage st i p).1 s1 h1
      refine ⟨s2, h2, by rw [hid2, hid1], ?_⟩
      rw [htxt2, htxt1, fragments, String.append_assoc]

theorem settle_chat_source (st : ChatApp) (k now : Nat) (m : String) (body : Body)
    (hk : st.pending[k]? = some (Pending.chat m)) :
    (settle st k (some ⟨true, body⟩) now).1.sources[st.sources.length]? = some ⟨false, now, ""⟩ := by
  simp [settle, hk, sendMessageResume, removeTypingIndicator]

theorem fragments_append (a b : List Payload) :
    fragments (a ++ b) = fragments a ++ fragments b := by
  induction a with
  | nil => simp [fragments]
  | cons p rest ih => simp [fragments, ih, String.append_assoc]

theorem reachable_run (st : ChatApp) (actions : List Action) (h : Reachable st) :
    Reachable (run st actions).1 := by
  obtain ⟨pre, rfl⟩ := h
  refine ⟨pre ++ actions, ?_⟩
  have key : ∀ (l : List Action) (s : ChatApp), (run s (l ++ actions)).1 = (run (run s l).1 actions).1 := by
    intro l
    induction l with
    | nil => intro s; rfl
    | cons a rest ih => intro s; simp only [List.cons_append, run]; exact ih _
  exact key pre init

/-- When the GET of `loadConversation` is rejected, or its body is not JSON, the rest of
the method changes nothing. -/
theorem loadConversationResume_undecoded (st : ChatApp) (id : String) (ok : Bool) :
    (loadConversationResume st id none).1 = st ∧
    (loadConversationResume st id (some ⟨ok, Body.unparseable⟩)).1 = st :=
  ⟨rfl, rfl⟩

/-! ## Claims -/

/-- C1: after an accepted send (the POST continuation `k` settles with an ok response at
time `now`) the new source starts with an empty reply, and for every list `pre` of payloads
already handled by its `onmessage` handler and every next payload `p`: when `p` carries a
non-empty content fragment the handler calls `updateMessageContent` exactly once, with the
id of the reply element and the concatenation in arrival order of all fragments received
so far; when it carries none (or the empty string) no call is made; in both cases the
accumulated reply is that concatenation. -/
theorem forwarded_reply_is_concatenation (st : ChatApp) (k now : Nat) (m : String) (body : Body)
    (hk : st.pending[k]? = some (Pending.chat m)) (pre : List Payload) (p : Payload) :
    accumulated (settle st k (some ⟨true, body⟩) now).1 st.sources.length = some "" ∧
    updates (onmessage (deliver (settle st k (some ⟨true, body⟩) now).1 st.sources.length pre)
        st.sources.length p).2
      = (if fragment p = "" then [] else [(now, fragments (pre ++ [p]))]) ∧
    accumulated (onmessage (deliver (settle st k (some ⟨true, body⟩) now).1 st.sources.length pre)
        st.sources.length p).1 st.sources.length
      = some (fragments (pre ++ [p])) := by
  have h0 := settle_chat_source st k now m body hk
  obtain ⟨s1, h1, hid1, htxt1⟩ := deliver_source pre _ _ _ h0
  obtain ⟨⟨s2, h2, _, htxt2⟩, hu⟩ := onmessage_source _ _ p s1 h1
  have hfr : fragments (pre ++ [p]) = fragments pre ++ fragment p := by
    rw [fragments_append]; simp [fragments]
  refine ⟨by simp [accumulated, h0], ?_, ?_⟩
  · rw [hu, hid1, htxt1, hfr]
    simp
  · simp only [accumulated, h2, Option.map_some', htxt2, htxt1, hfr]
    simp

/-- C1 at the scenario of the specification: "Hi", a conversation id, then " there". -/
theorem forwarded_reply_witness :
    awaiting.pending[1]? = some (Pending.chat "Hello") ∧
    updates (onmessage (deliver (settle awaiting 1 (some ⟨true, Body.other⟩) 7).1
        awaiting.sources.length
        [Payload.frame ⟨some "Hi", none, none⟩, Payload.frame ⟨none, some "c1", none⟩])
        awaiting.sources.length (Payload.frame ⟨some " there", none, none⟩)).2
      = [(7, "Hi there")] := by
  refine ⟨by decide, ?_⟩
  have h := (forwarded_reply_is_concatenation awaiting 1 7 "Hello" Body.other (by decide)
    [Payload.frame ⟨some "Hi", none, none⟩, Payload.frame ⟨none, some "c1", none⟩]
    (Payload.frame ⟨some " there", none, none⟩)).2.1
  rw [h]
  decide

/-- C2: when the stream of the open source reports a transport error, the message
elements of the chat container are, if the accumulated reply is empty, those of before
followed by exactly one generic error message, and, if the accumulated reply is non-empty,
exactly those of before (no error message is appended and the reply element keeps its
text); either way the source is closed, so no later frame or error of that source changes
anything. -/
theorem transport_error_reply (st : ChatApp) (i : Nat) (src : EventSource) (hr : Reachable st)
    (hopen : isOpen st i = true) (hsrc : st.sources[i]? = some src) :
    (src.assistantMessage = "" →
      messageNodes (step st (Action.error i)).1.chatContainer
        = messageNodes st.chatContainer ++ [Node.message Role.assistant errorText none]) ∧
    (src.assistantMessage ≠ "" →
      messageNodes (step st (Action.error i)).1.chatContainer
        = messageNodes st.chatContainer) ∧
    (∀ p, step (step st (Action.error i)).1 (Action.message i p)
        = ((step st (Action.error i)).1, [])) ∧
    step (step st (Action.error i)).1 (Action.error i) = ((step st (Action.error i)).1, []) := by
  have hcur := (inv_of_reachable st hr).current i hopen
  have hclosed : isOpen (step st (Action.error i)).1 i = false := by
    simp only [step, hopen, if_true, onerror, hcur, hsrc, removeTypingIndicator]
    split <;> simp [isOpen, addMessageToChat, sourceOpen_closeSource]
  refine ⟨?_, ?_, ?_, ?_⟩
  · intro he
    simp only [step, hopen, if_true, onerror, hcur, hsrc, he, removeTypingIndicator,
      addMessageToChat, messageNodes_append, messageNodes_erase_typing]
    simp [messageNodes, Node.isMessage]
  · intro he
    simp only [step, hopen, if_true, onerror, hcur, hsrc, he, if_false, removeTypingIndicator,
      messageNodes_erase_typing]
  · intro p
    generalize (step st (Action.error i)).1 = s at hclosed
    simp [step, hclosed]
  · generalize (step st (Action.error i)).1 = s at hclosed
    simp [step, hclosed]

/-- C2 on two concrete pages: an error before any content arrived appends the error text;
an error after "X" arrived leaves the reply "X" as it is. -/
theorem transport_error_witness :
    messageNodes (step streaming (Action.error 0)).1.chatContainer
      = [Node.message Role.user "Hello" none, Node.message Role.assistant "" (some 7),
         Node.message Role.assistant errorText none] ∧
    messageNodes (step streamingX (Action.error 0)).1.chatContainer
      = [Node.message Role.user "Hello" none, Node.message Role.assistant "X" (some 7)] := by
  have h1 := (transport_error_reply streaming 0 ⟨false, 7, ""⟩
    (reachable_run awaiting _ (reachable_run init _ ⟨[], rfl⟩)) (by decide) (by decide)).1 rfl
  have h2 := (transport_error_reply streamingX 0 ⟨false, 7, "X"⟩
    (reachable_run streaming _ (reachable_run awaiting _ (reachable_run init _ ⟨[], rfl⟩)))
    (by decide) (by decide)).2.1 (by decide)
  rw [h1, h2]
  exact ⟨by decide, by decide⟩

/-- C5: in every reachable state each terminal outcome of a send cycle clears the sending
flag and enables the send button: the POST continuation settling with a rejected fetch or a
non-2xx response, a transport error on the open source, and a frame with `done` set handled
on the open source. -/
theorem terminal_outcome_clears_sending (st : ChatApp) (hr : Reachable st) :
    (∀ k m r now, st.pending[k]? = some (Pending.chat m) →
      (r = none ∨ ∃ body, r = some ⟨false, body⟩) →
      (step st (Action.settle k r now)).1.isLoading = false ∧
      (step st (Action.settle k r now)).1.sendButtonDisabled = false) ∧
    (∀ i, isOpen st i = true →
      (step st (Action.error i)).1.isLoading = false ∧
      (step st (Action.error i)).1.sendButtonDisabled = false) ∧
    (∀ i f, isOpen st i = true → f.done = some true →
      (step st (Action.message i (Payload.frame f))).1.isLoading = false ∧
      (step st (Action.message i (Payload.frame f))).1.sendButtonDisabled = false) := by
  have hinv := inv_of_reachable st hr
  refine ⟨?_, ?_, ?_⟩
  · intro k m r now hk hfail
    rcases hfail with rfl | ⟨body, rfl⟩ <;>
      simp [step, settle, hk, sendMessageResume, addMessageToChat, removeTypingIndicator]
  · intro i hi
    have hcur := hinv.current i hi
    have hlt := sourceOpen_lt _ _ hi
    have hsrc : st.sources[i]? = some st.sources[i] := List.getElem?_eq_getElem hlt
    simp only [step, hi, if_true, onerror, hcur, hsrc, removeTypingIndicator]
    split <;> simp [addMessageToChat]
  · intro i f hi hdone
    have hcur := hinv.current i hi
    have h1 : (onmessageConversation (onmessageContent st i f).1 f).1.eventSource = some i := by
      have e1 : (onmessageContent st i f).1.eventSource = st.eventSource := by
        unfold onmessageContent
        split
        · split <;> rfl
        · rfl
      have e2 : ∀ s : ChatApp, (onmessageConversation s f).1.eventSource = s.eventSource := by
        intro s
        unfold onmessageConversation
        split
        · split <;> rfl
        · rfl
      rw [e2, e1, hcur]
    simp [step, hi, onmessage, onmessageDone, hdone, h1]

/-- C5 on concrete pages: a rejected POST on `awaiting`, a transport error and a `done`
frame on `streaming`. -/
theorem terminal_outcome_witness :
    ((step awaiting (Action.settle 1 none 7)).1.isLoading = false ∧
      (step awaiting (Action.settle 1 none 7)).1.sendButtonDisabled = false) ∧
    ((step streaming (Action.error 0)).1.isLoading = false ∧
      (step streaming (Action.error 0)).1.sendButtonDisabled = false) ∧
    ((step streaming (Action.message 0 (Payload.frame ⟨none, none, some true⟩))).1.isLoading
        = false ∧
      (step streaming (Action.message 0 (Payload.frame ⟨none, none, some true⟩))).1.sendButtonDisabled
        = false) :=
  ⟨(terminal_outcome_clears_sending awaiting (reachable_run init _ ⟨[], rfl⟩)).1 1 "Hello" none 7
      (by decide) (Or.inl rfl),
   (terminal_outcome_clears_sending streaming
      (reachable_run awaiting _ (reachable_run init _ ⟨[], rfl⟩))).2.1 0 (by decide),
   (terminal_outcome_clears_sending streaming
      (reachable_run awaiting _ (reachable_run init _ ⟨[], rfl⟩))).2.2 0 ⟨none, none, some true⟩
      (by decide) rfl⟩

/-- C6: a payload on which `JSON.parse` throws changes nothing in the state (reply
accumulator, current conversation id, sending flag, subscription and everything else); the
handler only logs, and whatever follows (frames handled by the handler, or any actions) runs
exactly as if the payload had not arrived. -/
theorem malformed_frame_absorbed (st : ChatApp) (i : Nat) (ps : List Payload)
    (rest : List Action) :
    onmessage st i Payload.malformed = (st, [Call.consoleError "Error parsing SSE data:"]) ∧
    (step st (Action.message i Payload.malformed)).1 = st ∧
    deliver st i (Payload.malformed :: ps) = deliver st i ps ∧
    run (step st (Action.message i Payload.malformed)).1 rest = run st rest := by
  have h : (step st (Action.message i Payload.malformed)).1 = st := by
    simp only [step]
    split <;> rfl
  exact ⟨rfl, h, rfl, by rw [h]⟩

/-- C9: when the DELETE of `deleteConversation(id)` settles while `id` is the current
conversation, a successful response leaves the current conversation id null and the chat
container empty (and issues the list reload); a rejected fetch or a non-2xx response leaves
the current conversation id and the chat container as they were. -/
theorem delete_current_conversation (st : ChatApp) (k : Nat) (id : String)
    (r : Option Response) (now : Nat) (hk : st.pending[k]? = some (Pending.delete id))
    (hcur : st.currentConversationId = some id) :
    ((∃ body, r = some ⟨true, body⟩) →
      (step st (Action.settle k r now)).1.currentConversationId = none ∧
      (step st (Action.settle k r now)).1.chatContainer = [] ∧
      (step st (Action.settle k r now)).1.pending
        = st.pending.eraseIdx k ++ [Pending.conversations]) ∧
    ((r = none ∨ ∃ body, r = some ⟨false, body⟩) →
      (step st (Action.settle k r now)).1.currentConversationId = st.currentConversationId ∧
      (step st (Action.settle k r now)).1.chatContainer = st.chatContainer) := by
  refine ⟨?_, ?_⟩
  · rintro ⟨body, rfl⟩
    simp [step, settle, hk, deleteConversationResume, hcur, startNewChat, loadConversations]
  · intro hfail
    rcases hfail with rfl | ⟨body, rfl⟩ <;>
      simp [step, settle, hk, deleteConversationResume]

/-- C9 on a concrete page: the user views "c1" and confirms its deletion; a 2xx response
empties the page, a non-2xx response leaves the two loaded messages in place. -/
theorem delete_current_witness :
    viewing.currentConversationId = some "c1" ∧
    ((step (deleteConversation viewing "c1" true)
        (Action.settle 0 (some ⟨true, Body.other⟩) 3)).1.currentConversationId = none ∧
     (step (deleteConversation viewing "c1" true)
        (Action.settle 0 (some ⟨true, Body.other⟩) 3)).1.chatContainer = []) ∧
    ((step (deleteConversation viewing "c1" true)
        (Action.settle 0 (some ⟨false, Body.other⟩) 3)).1.currentConversationId = some "c1" ∧
     (step (deleteConversation viewing "c1" true)
        (Action.settle 0 (some ⟨false, Body.other⟩) 3)).1.chatContainer
        = [Node.message Role.user "hi" none, Node.message Role.assistant "hello" none]) := by
  have h1 := (delete_current_conversation (deleteConversation viewing "c1" true) 0 "c1"
    (some ⟨true, Body.other⟩) 3 (by decide) (by decide)).1 ⟨Body.other, rfl⟩
  have h2 := (delete_current_conversation (deleteConversation viewing "c1" true) 0 "c1"
    (some ⟨false, Body.other⟩) 3 (by decide) (by decide)).2 (Or.inr ⟨Body.other, rfl⟩)
  refine ⟨by decide, ⟨h1.1, h1.2.1⟩, ?_, ?_⟩
  · rw [h2.1]; decide
  · rw [h2.2]; decide

theorem onmessageContent_frame (st : ChatApp) (i : Nat) (c id : Option String)
    (d : Option Bool) :
    onmessageContent st i ⟨c, id, d⟩ = onmessageContent st i ⟨c, none, none⟩ := rfl

theorem onmessage_content_only (st : ChatApp) (i : Nat) (c : Option String) :
    onmessage st i (Payload.frame ⟨c, none, none⟩) = onmessageContent st i ⟨c, none, none⟩ := by
  simp [onmessage, onmessageConversation, onmessageDone]

theorem onmessage_conversation_only (st : ChatApp) (i : Nat) (id : Option String) :
    onmessage st i (Payload.frame ⟨none, id, none⟩) = onmessageConversation st ⟨none, id, none⟩ := by
  simp [onmessage, onmessageContent, onmessageDone]

theorem onmessage_done_only (st : ChatApp) (i : Nat) (d : Option Bool) :
    onmessage st i (Payload.frame ⟨none, none, d⟩) = onmessageDone st ⟨none, none, d⟩ := by
  simp [onmessage, onmessageContent, onmessageConversation]

theorem onmessageConversation_frame (st : ChatApp) (c id : Option String) (d : Option Bool) :
    onmessageConversation st ⟨c, id, d⟩ = onmessageConversation st ⟨none, id, none⟩ := rfl

theorem onmessageDone_frame (st : ChatApp) (c id : Option String) (d : Option Bool) :
    onmessageDone st ⟨c, id, d⟩ = onmessageDone st ⟨none, none, d⟩ := rfl

theorem onmessage_fields (st : ChatApp) (i : Nat) (p : Payload) :
    (onmessage st i p).1.currentConversationId
      = (match boundId p with
         | some id => some id
         | none => st.currentConversationId) ∧
    (onmessage st i p).1.pending
      = st.pending ++ (match boundId p with
         | some _ => [Pending.conversations]
         | none => []) := by
  cases p with
  | malformed => simp [onmessage, boundId]
  | frame f =>
      have e1 : (onmessageContent st i f).1.currentConversationId = st.currentConversationId ∧
          (onmessageContent st i f).1.pending = st.pending := by
        unfold onmessageContent
        split
        · split <;> exact ⟨rfl, rfl⟩
        · exact ⟨rfl, rfl⟩
      have e3 : ∀ s : ChatApp, (onmessageDone s f).1.currentConversationId
            = s.currentConversationId ∧ (onmessageDone s f).1.pending = s.pending := by
        intro s
        unfold onmessageDone
        split
        · split <;> exact ⟨rfl, rfl⟩
        · exact ⟨rfl, rfl⟩
      simp only [onmessage, (e3 _).1, (e3 _).2, boundId]
      generalize (onmessageContent st i f).1 = s at e1
      unfold onmessageConversation
      cases hid : f.conversation_id with
      | none => simp [e1.1, e1.2]
      | some id =>
          by_cases he : id = ""
          · simp [he, e1.1, e1.2]
          · simp [he, loadConversations, e1.2]

/-- C10: for every frame and every state, handling one frame with the fields `content`,
`conversation_id` and `done` gives the same final state and the same calls as handling three
frames that carry the content, the conversation id and the done flag one by one in that
order; and on the open source of a reachable state a frame carrying a content, a non-empty
conversation id and `done` appends the content to the reply, sets the current conversation
id to the frame's id, closes the source and clears the sending flag. -/
theorem frame_fields_independent (st : ChatApp) (i : Nat) (c id : Option String)
    (d : Option Bool) :
    run st [Action.message i (Payload.frame ⟨c, id, d⟩)]
      = run st [Action.message i (Payload.frame ⟨c, none, none⟩),
                Action.message i (Payload.frame ⟨none, id, none⟩),
                Action.message i (Payload.frame ⟨none, none, d⟩)] ∧
    (Reachable st → isOpen st i = true → ∀ text cid src, c = some text → id = some cid →
      cid ≠ "" → d = some true → st.sources[i]? = some src →
      accumulated (step st (Action.message i (Payload.frame ⟨c, id, d⟩))).1 i
        = some (src.assistantMessage ++ text) ∧
      (step st (Action.message i (Payload.frame ⟨c, id, d⟩))).1.currentConversationId
        = some cid ∧
      isOpen (step st (Action.message i (Payload.frame ⟨c, id, d⟩))).1 i = false ∧
      (step st (Action.message i (Payload.frame ⟨c, id, d⟩))).1.isLoading = false) := by
  refine ⟨?_, ?_⟩
  · cases hopen : isOpen st i with
    | false => simp [run, step, hopen]
    | true =>
        have h1 : isOpen (onmessageContent st i ⟨c, none, none⟩).1 i = true := by
          rw [isOpen_onmessageContent]; exact hopen
        have h2 : isOpen (onmessageConversation (onmessageContent st i ⟨c, none, none⟩).1
            ⟨none, id, none⟩).1 i = true := by
          rw [isOpen_onmessageConversation]; exact h1
        simp only [run, step, hopen, if_true, onmessage_content_only, h1,
          onmessage_conversation_only, h2, onmessage_done_only, List.append_nil]
        simp only [onmessage, onmessageContent_frame st i c id d,
          onmessageConversation_frame _ c id d, onmessageDone_frame _ c id d, List.append_assoc]
  · intro hr hopen text cid src hc hid hne hd hsrc
    subst hc hid hd
    have hcur := (inv_of_reachable st hr).current i hopen
    obtain ⟨⟨s2, h2, _, htxt⟩, _⟩ :=
      onmessage_source st i (Payload.frame ⟨some text, some cid, some true⟩) src hsrc
    have hf := onmessage_fields st i (Payload.frame ⟨some text, some cid, some true⟩)
    have e1 : (onmessageContent st i ⟨some text, some cid, some true⟩).1.eventSource
        = st.eventSource := by
      unfold onmessageContent
      split
      · split <;> rfl
      · rfl
    have e2 : ∀ s : ChatApp,
        (onmessageConversation s ⟨some text, some cid, some true⟩).1.eventSource
          = s.eventSource := by
      intro s
      unfold onmessageConversation
      split
      · split <;> rfl
      · rfl
    simp only [step, hopen, if_true]
    refine ⟨?_, ?_, ?_, ?_⟩
    · simp [accumulated, h2, htxt, fragment]
    · rw [hf.1]; simp [boundId, hne]
    · simp [onmessage, onmessageDone, e2, e1, hcur, isOpen, sourceOpen_closeSource]
    · simp [onmessage, onmessageDone, e2, e1, hcur]

/-- C10 on the streaming page: one frame with "Hi", "c1" and `done`. -/
theorem frame_fields_witness :
    accumulated (step streaming (Action.message 0
        (Payload.frame ⟨some "Hi", some "c1", some true⟩))).1 0 = some "Hi" ∧
    (step streaming (Action.message 0
        (Payload.frame ⟨some "Hi", some "c1", some true⟩))).1.currentConversationId
      = some "c1" ∧
    isOpen (step streaming (Action.message 0
        (Payload.frame ⟨some "Hi", some "c1", some true⟩))).1 0 = false ∧
    (step streaming (Action.message 0
        (Payload.frame ⟨some "Hi", some "c1", some true⟩))).1.isLoading = false := by
  have h := (frame_fields_independent streaming 0 (some "Hi") (some "c1") (some true)).2
    (reachable_run awaiting _ (reachable_run init _ ⟨[], rfl⟩)) (by decide)
    "Hi" "c1" ⟨false, 7, ""⟩ rfl rfl (by decide) rfl (by decide)
  exact ⟨by rw [h.1]; decide, h.2.1, h.2.2.1, h.2.2.2⟩

/-- C3 fails as stated: on the streaming page, typing "again" and calling `sendMessage`
leaves source 0 open, and a frame it emits afterwards still changes the chat container. -/
theorem send_while_streaming_counterexample :
    isOpen streaming 0 = true ∧
    jsTrim "again" ≠ "" ∧
    isOpen (run streaming [Action.input "again", Action.send]).1 0 = true ∧
    (step (run streaming [Action.input "again", Action.send]).1
        (Action.message 0 (Payload.frame ⟨some "late", none, none⟩))).1.chatContainer
      = [Node.message Role.user "Hello" none, Node.message Role.assistant "late" (some 7)] ∧
    (run streaming [Action.input "again", Action.send]).1.chatContainer
      = [Node.message Role.user "Hello" none, Node.message Role.assistant "" (some 7)] := by
  decide

/-- C3 as amended: in every reachable state in which a source is streaming the sending
flag is set, so a call of `sendMessage` returns at its guard whatever the text: the state
is unchanged, the source stays open and attached, and everything that follows (the frames
of that source included) runs as if the call had not been made. -/
theorem send_while_streaming_ignored (st : ChatApp) (i : Nat) (hr : Reachable st)
    (hopen : isOpen st i = true) :
    st.isLoading = true ∧
    step st Action.send = (st, []) ∧
    isOpen (step st Action.send).1 i = true ∧
    (step st Action.send).1.eventSource = some i ∧
    ∀ rest, run st (Action.send :: rest) = run st rest := by
  have hinv := inv_of_reachable st hr
  have hl := hinv.loading i hopen
  have hs : step st Action.send = (st, []) := by
    simp [step, sendMessage, hl]
  refine ⟨hl, hs, by rw [hs]; exact hopen, by rw [hs]; exact hinv.current i hopen, ?_⟩
  intro rest
  simp [run, hs]

/-- C3 as amended, on the streaming page with "again" typed into the textarea. -/
theorem send_while_streaming_witness :
    isOpen (step streaming (Action.input "again")).1 0 = true ∧
    step (step streaming (Action.input "again")).1 Action.send
      = ((step streaming (Action.input "again")).1, []) :=
  ⟨by decide,
   (send_while_streaming_ignored (step streaming (Action.input "again")).1 0
      (reachable_run streaming [Action.input "again"]
        (reachable_run awaiting _ (reachable_run init _ ⟨[], rfl⟩)))
      (by decide)).2.1⟩

/-- C4 fails as stated: on the streaming page, after `startNewChat` has reset the current
conversation id to null, a frame of the same cycle carrying the id "c1" sets the current
conversation id to "c1" and issues the list reload. -/
theorem late_binding_counterexample :
    (step streaming Action.newChat).1.currentConversationId = none ∧
    (step (step streaming Action.newChat).1
        (Action.message 0 (Payload.frame ⟨none, some "c1", none⟩))).1.currentConversationId
      = some "c1" ∧
    (step (step streaming Action.newChat).1
        (Action.message 0 (Payload.frame ⟨none, some "c1", none⟩))).1.pending
      = (step streaming Action.newChat).1.pending ++ [Pending.conversations] := by
  decide

/-- C4 as amended: a frame carrying a non-empty conversation id that the open source
delivers after `startNewChat` was called during the cycle is applied like any other: the
current conversation id becomes the id of the frame and the list reload is issued. -/
theorem late_binding_applied (st : ChatApp) (i : Nat) (f : Frame) (id : String)
    (hopen : isOpen st i = true) (hid : f.conversation_id = some id) (hne : id ≠ "") :
    (step st Action.newChat).1.currentConversationId = none ∧
    (step (step st Action.newChat).1 (Action.message i (Payload.frame f))).1.currentConversationId
      = some id ∧
    (step (step st Action.newChat).1 (Action.message i (Payload.frame f))).1.pending
      = (step st Action.newChat).1.pending ++ [Pending.conversations] := by
  have hopen2 : isOpen (startNewChat st).1 i = true := hopen
  have hf := onmessage_fields (startNewChat st).1 i (Payload.frame f)
  have hb : boundId (Payload.frame f) = some id := by simp [boundId, hid, hne]
  rw [hb] at hf
  refine ⟨rfl, ?_, ?_⟩
  · simp only [step, hopen2, if_true]
    exact hf.1
  · simp only [step, hopen2, if_true]
    exact hf.2

/-- C4 as amended, on the streaming page. -/
theorem late_binding_witness :
    isOpen streaming 0 = true ∧
    (step (step streaming Action.newChat).1
        (Action.message 0 (Payload.frame ⟨some "Hi", some "c1", none⟩))).1.currentConversationId
      = some "c1" :=
  ⟨by decide,
   (late_binding_applied streaming 0 ⟨some "Hi", some "c1", none⟩ "c1" (by decide) rfl
      (by decide)).2.1⟩

/-- C7 fails as stated: on the streaming page a frame binds the conversation id to "c1"
and a later frame of the same cycle changes it to "c2". -/
theorem rebinding_counterexample :
    (run streaming
        [Action.message 0 (Payload.frame ⟨none, some "c1", none⟩)]).1.currentConversationId
      = some "c1" ∧
    (run streaming
        [Action.message 0 (Payload.frame ⟨none, some "c1", none⟩),
         Action.message 0 (Payload.frame ⟨none, some "c2", none⟩)]).1.currentConversationId
      = some "c2" := by
  decide

/-- C7 as amended: a payload handled by `onmessage` leaves the current conversation id as
it is unless it carries a non-empty conversation id, and then sets it to that id; so once
the id is bound to `v`, later frames of the cycle that carry no conversation id, the empty
one or `v` again keep it at `v`. -/
theorem binding_kept_without_new_id (st : ChatApp) (i : Nat) (v : String) (ps : List Payload)
    (hv : st.currentConversationId = some v)
    (hps : ∀ p ∈ ps, boundId p = none ∨ boundId p = some v) :
    (∀ (s : ChatApp) (p : Payload), (onmessage s i p).1.currentConversationId
      = (match boundId p with
         | some id => some id
         | none => s.currentConversationId)) ∧
    (deliver st i ps).currentConversationId = some v := by
  refine ⟨fun s p => (onmessage_fields s i p).1, ?_⟩
  induction ps generalizing st with
  | nil => exact hv
  | cons p rest ih =>
      apply ih
      · rw [(onmessage_fields st i p).1]
        rcases hps p (List.mem_cons_self _ _) with h | h <;> simp [h, hv]
      · intro q hq
        exact hps q (List.mem_cons_of_mem _ hq)

/-- C7 as amended, on the streaming page after "c1" was bound: content, a repeated "c1"
and a malformed payload keep the id. -/
theorem binding_kept_witness :
    (deliver (step streaming (Action.message 0 (Payload.frame ⟨none, some "c1", none⟩))).1 0
        [Payload.frame ⟨some "Hi", none, none⟩, Payload.frame ⟨none, some "c1", none⟩,
         Payload.malformed]).currentConversationId
      = some "c1" :=
  (binding_kept_without_new_id
    (step streaming (Action.message 0 (Payload.frame ⟨none, some "c1", none⟩))).1 0 "c1"
    [Payload.frame ⟨some "Hi", none, none⟩, Payload.frame ⟨none, some "c1", none⟩,
     Payload.malformed]
    (by decide) (by decide)).2

/-- C8 on a concrete page: the user views "c1" and deletes "c2"; the DELETE succeeds but
the list reload that follows is rejected, so the sidebar still lists "c2"; the user clicks
it and the backend answers 404 with a JSON object that has no `messages`. The current
conversation id becomes "c2" and the chat container is emptied. -/
theorem load_missing_conversation :
    viewing.currentConversationId = some "c1" ∧
    viewing.chatContainer
      = [Node.message Role.user "hi" none, Node.message Role.assistant "hello" none] ∧
    (run viewing
        [Action.deleteConversation "c2" true,
         Action.settle 0 (some ⟨true, Body.other⟩) 3,
         Action.settle 0 none 4,
         Action.openConversation "c2",
         Action.settle 0 (some ⟨false, Body.conversation none⟩) 5]).1.currentConversationId
      = some "c2" ∧
    (run viewing
        [Action.deleteConversation "c2" true,
         Action.settle 0 (some ⟨true, Body.other⟩) 3,
         Action.settle 0 none 4,
         Action.openConversation "c2",
         Action.settle 0 (some ⟨false, Body.conversation none⟩) 5]).1.chatContainer = [] := by
  decide

end Chat
